import Mathlib

/-!
Verification of the queue message-contract layer of RTradeLtd/tns
(`queue/types.go`).

The Go file declares a catalogue of queue-name string constants and one
JSON-tagged record struct per queue.  Serialization is Go's `encoding/json`
applied to those struct tags, so we embed:

* a generic JSON document type `Json` (numbers as `ℚ`, objects as ordered
  association lists — Go map iteration order is represented by list order);
* per-struct `encode` functions following the struct tags in declaration
  order, honouring `omitempty`;
* per-struct decoders following `encoding/json` unmarshalling semantics:
  the decoder walks the keys of the incoming object, keys that match no
  struct tag are ignored, a missing key leaves the field at its zero value,
  a JSON `null` leaves the field unchanged, and a type mismatch records an
  error but decoding continues (the first error is reported at the end,
  exactly as `encoding/json` does with `UnmarshalTypeError`).

Go's decoder additionally accepts a case-insensitively matching key when no
exact tag match exists.  The embedding matches keys exactly, so every
statement below quantifies only over documents whose keys either are exact
wire tags (well-formed payloads, see `pinFieldNoCid` and
`emailFieldNoEmails`) or match no tag of the destination struct even
case-insensitively (`cid` and `payment_forward_id` against `IPNSUpdate`
and `PaymentConfirmation`); on those documents the two matching semantics
coincide.

`float64` fields are modelled as `ℚ`; `int`/`int64` fields (including
`time.Duration`, an `int64` of nanoseconds) as `ℤ`, with the decoder
rejecting non-integral JSON numbers as `encoding/json` does.
-/

/-- Generic JSON value.  Objects are ordered association lists. -/
inductive Json where
  | null : Json
  | bool : Bool → Json
  | num : ℚ → Json
  | str : String → Json
  | arr : List Json → Json
  | obj : List (String × Json) → Json

/-- Embed a Go integer as a JSON number. -/
def Json.int (n : ℤ) : Json := .num (n : ℚ)

/-- Keys of a JSON object (empty for non-objects). -/
def Json.keys : Json → List String
  | .obj kvs => kvs.map Prod.fst
  | _ => []

/-- First binding of a key in an association list. -/
def Json.find : List (String × Json) → String → Option Json
  | [], _ => none
  | (k, v) :: rest, key => if key = k then some v else Json.find rest key

/-- Look a key up in a JSON object. -/
def Json.lookup (j : Json) (key : String) : Option Json :=
  match j with
  | .obj kvs => Json.find kvs key
  | _ => none

/-- Key/value bindings of a JSON object (empty for non-objects). -/
def Json.fields : Json → List (String × Json)
  | .obj kvs => kvs
  | _ => []

/-- Read a JSON string. -/
def Json.getStr : Json → Option String
  | .str s => some s
  | _ => none

/-- Read a JSON number into a Go integer field; `encoding/json` rejects
non-integral numbers for integer destinations. -/
def Json.getInt : Json → Option ℤ
  | .num q => if q.den = 1 then some q.num else none
  | _ => none

/-- Read a JSON number into a Go `float64` field. -/
def Json.getNum : Json → Option ℚ
  | .num q => some q
  | _ => none

/-- Read a JSON boolean. -/
def Json.getBool : Json → Option Bool
  | .bool b => some b
  | _ => none

/-- Read every element of a JSON array as a string, all-or-nothing. -/
def Json.getStrs : List Json → Option (List String)
  | [] => some []
  | x :: xs =>
    match Json.getStr x, Json.getStrs xs with
    | some s, some rest => some (s :: rest)
    | _, _ => none

/-- Read a JSON array of strings (a Go `[]string`). -/
def Json.getStrList : Json → Option (List String)
  | .arr xs => Json.getStrs xs
  | _ => none

/-- Read every value of a JSON object as a string, all-or-nothing. -/
def Json.getStrPairs : List (String × Json) → Option (List (String × String))
  | [] => some []
  | (k, v) :: rest =>
    match Json.getStr v, Json.getStrPairs rest with
    | some s, some tail => some ((k, s) :: tail)
    | _, _ => none

/-- Read a JSON object with string values (a Go `map[string]string`). -/
def Json.getStrMap : Json → Option (List (String × String))
  | .obj kvs => Json.getStrPairs kvs
  | _ => none

/-- Read a JSON object with arbitrary values (a Go `map[string]interface` of
decoded generic JSON values). -/
def Json.getObj : Json → Option (List (String × Json))
  | .obj kvs => some kvs
  | _ => none

/-- One `encoding/json` field-store step: a JSON `null` leaves the
destination unchanged without error; a value of the right type updates the
field; a type mismatch leaves the field and records an error. -/
def setVia {α β : Type} (get : Json → Option β) (upd : α → β → α)
    (msg : String) (r : α) (v : Json) : α × Option String :=
  match v with
  | .null => (r, none)
  | _ =>
    match get v with
    | some b => (upd r b, none)
    | none => (r, some msg)

/-- Walk the keys of a JSON object in order, applying the struct's
field-store function; the first error encountered is kept but decoding
continues, as `encoding/json` does. -/
def decodeFields {α : Type} (set : α → String → Json → α × Option String) :
    α → Option String → List (String × Json) → α × Option String
  | r, e, [] => (r, e)
  | r, e, (k, v) :: rest =>
    let p := set r k v
    decodeFields set p.fst (e <|> p.snd) rest

/-! ### Queue name catalogue (`queue/types.go` lines 12–41) -/

/-- Queue used for simple file adds. -/
def DatabaseFileAddQueue : String := "dfa-queue"

/-- Queue used for ipfs pins. -/
def IpfsPinQueue : String := "ipfs-pin-queue"

/-- Queue used for advanced file adds. -/
def IpfsFileQueue : String := "ipfs-file-queue"

/-- Queue used for ipfs cluster pins. -/
def IpfsClusterPinQueue : String := "ipfs-cluster-add-queue"

/-- Queue used to handle sending email messages. -/
def EmailSendQueue : String := "email-send-queue"

/-- Queue used to handle ipns entry creation. -/
def IpnsEntryQueue : String := "ipns-entry-queue"

/-- Queue used to handle ipfs key creation. -/
def IpfsKeyCreationQueue : String := "ipfs-key-creation-queue"

/-- Queue used to handle payment processing. -/
def PaymentCreationQueue : String := "payment-creation-queue"

/-- Queue used to handle payment confirmations. -/
def PaymentConfirmationQueue : String := "payment-confirmation-queue"

/-- Queue used to handle confirming dash payments. -/
def DashPaymentConfirmationQueue : String := "dash-payment-confirmation-queue"

/-- Queue used to trigger mongodb updates. -/
def MongoUpdateQueue : String := "mongo-update-queue"

/-- Queue used to handle tns zone creations. -/
def ZoneCreationQueue : String := "zone-creation-queue"

/-- Queue used to handle tns record creation. -/
def RecordCreationQueue : String := "record-creation-queue"

/-- The catalogue of queue name constants, in declaration order. -/
def queueNames : List String :=
  [DatabaseFileAddQueue, IpfsPinQueue, IpfsFileQueue, IpfsClusterPinQueue,
   EmailSendQueue, IpnsEntryQueue, IpfsKeyCreationQueue, PaymentCreationQueue,
   PaymentConfirmationQueue, DashPaymentConfirmationQueue, MongoUpdateQueue,
   ZoneCreationQueue, RecordCreationQueue]

/-! ### IPFSPin (`queue/types.go` lines 89–95) -/

/-- Struct used when sending a pin request. -/
structure IPFSPin where
  CID : String
  NetworkName : String
  UserName : String
  HoldTimeInMonths : ℤ
  CreditCost : ℚ

/-- Zero value of `IPFSPin`. -/
def IPFSPin.zero : IPFSPin := ⟨"", "", "", 0, 0⟩

/-- JSON encoding of `IPFSPin`, tags in declaration order. -/
def IPFSPin.encode (p : IPFSPin) : Json :=
  .obj [("cid", .str p.CID), ("network_name", .str p.NetworkName),
        ("user_name", .str p.UserName),
        ("hold_time_in_months", .int p.HoldTimeInMonths),
        ("credit_cost", .num p.CreditCost)]

/-- Store one incoming key into an `IPFSPin`. -/
def IPFSPin.setField (r : IPFSPin) (k : String) (v : Json) :
    IPFSPin × Option String :=
  if k = "cid" then setVia Json.getStr (fun r s => {r with CID := s}) k r v
  else if k = "network_name" then
    setVia Json.getStr (fun r s => {r with NetworkName := s}) k r v
  else if k = "user_name" then
    setVia Json.getStr (fun r s => {r with UserName := s}) k r v
  else if k = "hold_time_in_months" then
    setVia Json.getInt (fun r n => {r with HoldTimeInMonths := n}) k r v
  else if k = "credit_cost" then
    setVia Json.getNum (fun r q => {r with CreditCost := q}) k r v
  else (r, none)

/-- Key-walking decode of an `IPFSPin`, returning the partially populated
record together with the first error, if any. -/
def IPFSPin.decodeRaw (kvs : List (String × Json)) : IPFSPin × Option String :=
  decodeFields IPFSPin.setField IPFSPin.zero none kvs

/-- Decode of an `IPFSPin` from a JSON document. -/
def IPFSPin.decode (j : Json) : Except String IPFSPin :=
  match j with
  | .null => .ok IPFSPin.zero
  | .obj kvs =>
    match IPFSPin.decodeRaw kvs with
    | (r, none) => .ok r
    | (_, some m) => .error m
  | _ => .error "json: cannot unmarshal non-object into IPFSPin"

/-! ### IPFSClusterPin (`queue/types.go` lines 113–119) -/

/-- Queue message used when sending a message to the cluster to pin content. -/
structure IPFSClusterPin where
  CID : String
  NetworkName : String
  UserName : String
  HoldTimeInMonths : ℤ
  CreditCost : ℚ

/-- Zero value of `IPFSClusterPin`. -/
def IPFSClusterPin.zero : IPFSClusterPin := ⟨"", "", "", 0, 0⟩

/-- JSON encoding of `IPFSClusterPin`, tags in declaration order. -/
def IPFSClusterPin.encode (p : IPFSClusterPin) : Json :=
  .obj [("cid", .str p.CID), ("network_name", .str p.NetworkName),
        ("user_name", .str p.UserName),
        ("hold_time_in_months", .int p.HoldTimeInMonths),
        ("credit_cost", .num p.CreditCost)]

/-- Store one incoming key into an `IPFSClusterPin`. -/
def IPFSClusterPin.setField (r : IPFSClusterPin) (k : String) (v : Json) :
    IPFSClusterPin × Option String :=
  if k = "cid" then setVia Json.getStr (fun r s => {r with CID := s}) k r v
  else if k = "network_name" then
    setVia Json.getStr (fun r s => {r with NetworkName := s}) k r v
  else if k = "user_name" then
    setVia Json.getStr (fun r s => {r with UserName := s}) k r v
  else if k = "hold_time_in_months" then
    setVia Json.getInt (fun r n => {r with HoldTimeInMonths := n}) k r v
  else if k = "credit_cost" then
    setVia Json.getNum (fun r q => {r with CreditCost := q}) k r v
  else (r, none)

/-- Key-walking decode of an `IPFSClusterPin`. -/
def IPFSClusterPin.decodeRaw (kvs : List (String × Json)) :
    IPFSClusterPin × Option String :=
  decodeFields IPFSClusterPin.setField IPFSClusterPin.zero none kvs

/-- Decode of an `IPFSClusterPin` from a JSON document. -/
def IPFSClusterPin.decode (j : Json) : Except String IPFSClusterPin :=
  match j with
  | .null => .ok IPFSClusterPin.zero
  | .obj kvs =>
    match IPFSClusterPin.decodeRaw kvs with
    | (r, none) => .ok r
    | (_, some m) => .error m
  | _ => .error "json: cannot unmarshal non-object into IPFSClusterPin"

/-! ### DatabaseFileAdd (`queue/types.go` lines 122–128) -/

/-- Struct used when sending data to rabbitmq for simple file adds. -/
structure DatabaseFileAdd where
  Hash : String
  HoldTimeInMonths : ℤ
  UserName : String
  NetworkName : String
  CreditCost : ℚ

/-- Zero value of `DatabaseFileAdd`. -/
def DatabaseFileAdd.zero : DatabaseFileAdd := ⟨"", 0, "", "", 0⟩

/-- JSON encoding of `DatabaseFileAdd`, tags in declaration order. -/
def DatabaseFileAdd.encode (p : DatabaseFileAdd) : Json :=
  .obj [("hash", .str p.Hash),
        ("hold_time_in_months", .int p.HoldTimeInMonths),
        ("user_name", .str p.UserName),
        ("network_name", .str p.NetworkName),
        ("credit_cost", .num p.CreditCost)]

/-- Store one incoming key into a `DatabaseFileAdd`. -/
def DatabaseFileAdd.setField (r : DatabaseFileAdd) (k : String) (v : Json) :
    DatabaseFileAdd × Option String :=
  if k = "hash" then setVia Json.getStr (fun r s => {r with Hash := s}) k r v
  else if k = "hold_time_in_months" then
    setVia Json.getInt (fun r n => {r with HoldTimeInMonths := n}) k r v
  else if k = "user_name" then
    setVia Json.getStr (fun r s => {r with UserName := s}) k r v
  else if k = "network_name" then
    setVia Json.getStr (fun r s => {r with NetworkName := s}) k r v
  else if k = "credit_cost" then
    setVia Json.getNum (fun r q => {r with CreditCost := q}) k r v
  else (r, none)

/-- Key-walking decode of a `DatabaseFileAdd`. -/
def DatabaseFileAdd.decodeRaw (kvs : List (String × Json)) :
    DatabaseFileAdd × Option String :=
  decodeFields DatabaseFileAdd.setField DatabaseFileAdd.zero none kvs

/-- Decode of a `DatabaseFileAdd` from a JSON document. -/
def DatabaseFileAdd.decode (j : Json) : Except String DatabaseFileAdd :=
  match j with
  | .null => .ok DatabaseFileAdd.zero
  | .obj kvs =>
    match DatabaseFileAdd.decodeRaw kvs with
    | (r, none) => .ok r
    | (_, some m) => .error m
  | _ => .error "json: cannot unmarshal non-object into DatabaseFileAdd"

/-! ### IPFSKeyCreation (`queue/types.go` lines 79–86) -/

/-- Message used for processing key creation. -/
structure IPFSKeyCreation where
  UserName : String
  Name : String
  KeyType : String
  Size : ℤ
  NetworkName : String
  CreditCost : ℚ

/-- Zero value of `IPFSKeyCreation`. -/
def IPFSKeyCreation.zero : IPFSKeyCreation := ⟨"", "", "", 0, "", 0⟩

/-- JSON encoding of `IPFSKeyCreation`, tags in declaration order (the Go
field is named `Type`, which is a reserved word here, so the Lean field is
`KeyType`; the wire tag stays `type`). -/
def IPFSKeyCreation.encode (p : IPFSKeyCreation) : Json :=
  .obj [("user_name", .str p.UserName), ("name", .str p.Name),
        ("type", .str p.KeyType), ("size", .int p.Size),
        ("network_name", .str p.NetworkName),
        ("credit_cost", .num p.CreditCost)]

/-- Store one incoming key into an `IPFSKeyCreation`. -/
def IPFSKeyCreation.setField (r : IPFSKeyCreation) (k : String) (v : Json) :
    IPFSKeyCreation × Option String :=
  if k = "user_name" then
    setVia Json.getStr (fun r s => {r with UserName := s}) k r v
  else if k = "name" then
    setVia Json.getStr (fun r s => {r with Name := s}) k r v
  else if k = "type" then
    setVia Json.getStr (fun r s => {r with KeyType := s}) k r v
  else if k = "size" then
    setVia Json.getInt (fun r n => {r with Size := n}) k r v
  else if k = "network_name" then
    setVia Json.getStr (fun r s => {r with NetworkName := s}) k r v
  else if k = "credit_cost" then
    setVia Json.getNum (fun r q => {r with CreditCost := q}) k r v
  else (r, none)

/-- Key-walking decode of an `IPFSKeyCreation`. -/
def IPFSKeyCreation.decodeRaw (kvs : List (String × Json)) :
    IPFSKeyCreation × Option String :=
  decodeFields IPFSKeyCreation.setField IPFSKeyCreation.zero none kvs

/-- Decode of an `IPFSKeyCreation` from a JSON document. -/
def IPFSKeyCreation.decode (j : Json) : Except String IPFSKeyCreation :=
  match j with
  | .null => .ok IPFSKeyCreation.zero
  | .obj kvs =>
    match IPFSKeyCreation.decodeRaw kvs with
    | (r, none) => .ok r
    | (_, some m) => .error m
  | _ => .error "json: cannot unmarshal non-object into IPFSKeyCreation"

/-! ### PaymentCreation (`queue/types.go` lines 165–169) -/

/-- Message for the payment creation queue. -/
structure PaymentCreation where
  TxHash : String
  Blockchain : String
  UserName : String

/-- Zero value of `PaymentCreation`. -/
def PaymentCreation.zero : PaymentCreation := ⟨"", "", ""⟩

/-- JSON encoding of `PaymentCreation`, tags in declaration order. -/
def PaymentCreation.encode (p : PaymentCreation) : Json :=
  .obj [("tx_hash", .str p.TxHash), ("blockchain", .str p.Blockchain),
        ("user_name", .str p.UserName)]

/-- Store one incoming key into a `PaymentCreation`. -/
def PaymentCreation.setField (r : PaymentCreation) (k : String) (v : Json) :
    PaymentCreation × Option String :=
  if k = "tx_hash" then
    setVia Json.getStr (fun r s => {r with TxHash := s}) k r v
  else if k = "blockchain" then
    setVia Json.getStr (fun r s => {r with Blockchain := s}) k r v
  else if k = "user_name" then
    setVia Json.getStr (fun r s => {r with UserName := s}) k r v
  else (r, none)

/-- Key-walking decode of a `PaymentCreation`. -/
def PaymentCreation.decodeRaw (kvs : List (String × Json)) :
    PaymentCreation × Option String :=
  decodeFields PaymentCreation.setField PaymentCreation.zero none kvs

/-- Decode of a `PaymentCreation` from a JSON document. -/
def PaymentCreation.decode (j : Json) : Except String PaymentCreation :=
  match j with
  | .null => .ok PaymentCreation.zero
  | .obj kvs =>
    match PaymentCreation.decodeRaw kvs with
    | (r, none) => .ok r
    | (_, some m) => .error m
  | _ => .error "json: cannot unmarshal non-object into PaymentCreation"

/-! ### DashPaymenConfirmation (`queue/types.go` lines 172–176) -/

/-- Message used to signal processing of a dash payment (the Go type name
really is spelled `DashPaymenConfirmation`). -/
structure DashPaymenConfirmation where
  UserName : String
  PaymentForwardID : String
  PaymentNumber : ℤ

/-- Zero value of `DashPaymenConfirmation`. -/
def DashPaymenConfirmation.zero : DashPaymenConfirmation := ⟨"", "", 0⟩

/-- JSON encoding of `DashPaymenConfirmation`, tags in declaration order. -/
def DashPaymenConfirmation.encode (p : DashPaymenConfirmation) : Json :=
  .obj [("user_name", .str p.UserName),
        ("payment_forward_id", .str p.PaymentForwardID),
        ("payment_number", .int p.PaymentNumber)]

/-- Store one incoming key into a `DashPaymenConfirmation`. -/
def DashPaymenConfirmation.setField (r : DashPaymenConfirmation) (k : String)
    (v : Json) : DashPaymenConfirmation × Option String :=
  if k = "user_name" then
    setVia Json.getStr (fun r s => {r with UserName := s}) k r v
  else if k = "payment_forward_id" then
    setVia Json.getStr (fun r s => {r with PaymentForwardID := s}) k r v
  else if k = "payment_number" then
    setVia Json.getInt (fun r n => {r with PaymentNumber := n}) k r v
  else (r, none)

/-- Key-walking decode of a `DashPaymenConfirmation`. -/
def DashPaymenConfirmation.decodeRaw (kvs : List (String × Json)) :
    DashPaymenConfirmation × Option String :=
  decodeFields DashPaymenConfirmation.setField DashPaymenConfirmation.zero none kvs

/-- Decode of a `DashPaymenConfirmation` from a JSON document. -/
def DashPaymenConfirmation.decode (j : Json) :
    Except String DashPaymenConfirmation :=
  match j with
  | .null => .ok DashPaymenConfirmation.zero
  | .obj kvs =>
    match DashPaymenConfirmation.decodeRaw kvs with
    | (r, none) => .ok r
    | (_, some m) => .error m
  | _ => .error "json: cannot unmarshal non-object into DashPaymenConfirmation"

/-! ### PaymentConfirmation (`queue/types.go` lines 179–182) -/

/-- Message used to confirm a payment. -/
structure PaymentConfirmation where
  UserName : String
  PaymentNumber : ℤ

/-- Zero value of `PaymentConfirmation`. -/
def PaymentConfirmation.zero : PaymentConfirmation := ⟨"", 0⟩

/-- JSON encoding of `PaymentConfirmation`, tags in declaration order. -/
def PaymentConfirmation.encode (p : PaymentConfirmation) : Json :=
  .obj [("user_name", .str p.UserName),
        ("payment_number", .int p.PaymentNumber)]

/-- Store one incoming key into a `PaymentConfirmation`. -/
def PaymentConfirmation.setField (r : PaymentConfirmation) (k : String)
    (v : Json) : PaymentConfirmation × Option String :=
  if k = "user_name" then
    setVia Json.getStr (fun r s => {r with UserName := s}) k r v
  else if k = "payment_number" then
    setVia Json.getInt (fun r n => {r with PaymentNumber := n}) k r v
  else (r, none)

/-- Key-walking decode of a `PaymentConfirmation`. -/
def PaymentConfirmation.decodeRaw (kvs : List (String × Json)) :
    PaymentConfirmation × Option String :=
  decodeFields PaymentConfirmation.setField PaymentConfirmation.zero none kvs

/-- Decode of a `PaymentConfirmation` from a JSON document. -/
def PaymentConfirmation.decode (j : Json) : Except String PaymentConfirmation :=
  match j with
  | .null => .ok PaymentConfirmation.zero
  | .obj kvs =>
    match PaymentConfirmation.decodeRaw kvs with
    | (r, none) => .ok r
    | (_, some m) => .error m
  | _ => .error "json: cannot unmarshal non-object into PaymentConfirmation"

/-! ### ZoneCreation (`queue/types.go` lines 192–197) -/

/-- Message used for creating tns zones. -/
structure ZoneCreation where
  Name : String
  ManagerKeyName : String
  ZoneKeyName : String
  UserName : String

/-- Zero value of `ZoneCreation`. -/
def ZoneCreation.zero : ZoneCreation := ⟨"", "", "", ""⟩

/-- JSON encoding of `ZoneCreation`, tags in declaration order. -/
def ZoneCreation.encode (p : ZoneCreation) : Json :=
  .obj [("name", .str p.Name), ("manager_key_name", .str p.ManagerKeyName),
        ("zone_key_name", .str p.ZoneKeyName), ("user_name", .str p.UserName)]

/-- Store one incoming key into a `ZoneCreation`. -/
def ZoneCreation.setField (r : ZoneCreation) (k : String) (v : Json) :
    ZoneCreation × Option String :=
  if k = "name" then setVia Json.getStr (fun r s => {r with Name := s}) k r v
  else if k = "manager_key_name" then
    setVia Json.getStr (fun r s => {r with ManagerKeyName := s}) k r v
  else if k = "zone_key_name" then
    setVia Json.getStr (fun r s => {r with ZoneKeyName := s}) k r v
  else if k = "user_name" then
    setVia Json.getStr (fun r s => {r with UserName := s}) k r v
  else (r, none)

/-- Key-walking decode of a `ZoneCreation`. -/
def ZoneCreation.decodeRaw (kvs : List (String × Json)) :
    ZoneCreation × Option String :=
  decodeFields ZoneCreation.setField ZoneCreation.zero none kvs

/-- Decode of a `ZoneCreation` from a JSON document. -/
def ZoneCreation.decode (j : Json) : Except String ZoneCreation :=
  match j with
  | .null => .ok ZoneCreation.zero
  | .obj kvs =>
    match ZoneCreation.decodeRaw kvs with
    | (r, none) => .ok r
    | (_, some m) => .error m
  | _ => .error "json: cannot unmarshal non-object into ZoneCreation"

/-! ### IPFSFile (`queue/types.go` lines 98–110) -/

/-- Message for the ipfs file queue.  `HoldTimeInMonths` is a **string**
here, unlike the integer field of the same wire name in the pin and
database-add messages.  `FileName` and `FileSize` carry `omitempty`. -/
structure IPFSFile where
  MinioHostIP : String
  FileName : String
  FileSize : ℤ
  BucketName : String
  ObjectName : String
  UserName : String
  NetworkName : String
  HoldTimeInMonths : String
  CreditCost : ℚ
  Encrypted : Bool

/-- Zero value of `IPFSFile`. -/
def IPFSFile.zero : IPFSFile := ⟨"", "", 0, "", "", "", "", "", 0, false⟩

/-- JSON encoding of `IPFSFile`, tags in declaration order; the two
`omitempty` fields are dropped at their zero values. -/
def IPFSFile.encode (f : IPFSFile) : Json :=
  .obj ([("minio_host_ip", .str f.MinioHostIP)]
    ++ (if f.FileName = "" then [] else [("file_name", .str f.FileName)])
    ++ (if f.FileSize = 0 then [] else [("file_size", Json.int f.FileSize)])
    ++ [("bucket_name", .str f.BucketName), ("object_name", .str f.ObjectName),
        ("user_name", .str f.UserName), ("network_name", .str f.NetworkName),
        ("hold_time_in_months", .str f.HoldTimeInMonths),
        ("credit_cost", .num f.CreditCost), ("encrypted", .bool f.Encrypted)])

/-- Store one incoming key into an `IPFSFile`. -/
def IPFSFile.setField (r : IPFSFile) (k : String) (v : Json) :
    IPFSFile × Option String :=
  if k = "minio_host_ip" then
    setVia Json.getStr (fun r s => {r with MinioHostIP := s}) k r v
  else if k = "file_name" then
    setVia Json.getStr (fun r s => {r with FileName := s}) k r v
  else if k = "file_size" then
    setVia Json.getInt (fun r n => {r with FileSize := n}) k r v
  else if k = "bucket_name" then
    setVia Json.getStr (fun r s => {r with BucketName := s}) k r v
  else if k = "object_name" then
    setVia Json.getStr (fun r s => {r with ObjectName := s}) k r v
  else if k = "user_name" then
    setVia Json.getStr (fun r s => {r with UserName := s}) k r v
  else if k = "network_name" then
    setVia Json.getStr (fun r s => {r with NetworkName := s}) k r v
  else if k = "hold_time_in_months" then
    setVia Json.getStr (fun r s => {r with HoldTimeInMonths := s}) k r v
  else if k = "credit_cost" then
    setVia Json.getNum (fun r q => {r with CreditCost := q}) k r v
  else if k = "encrypted" then
    setVia Json.getBool (fun r b => {r with Encrypted := b}) k r v
  else (r, none)

/-- Key-walking decode of an `IPFSFile`. -/
def IPFSFile.decodeRaw (kvs : List (String × Json)) : IPFSFile × Option String :=
  decodeFields IPFSFile.setField IPFSFile.zero none kvs

/-- Decode of an `IPFSFile` from a JSON document. -/
def IPFSFile.decode (j : Json) : Except String IPFSFile :=
  match j with
  | .null => .ok IPFSFile.zero
  | .obj kvs =>
    match IPFSFile.decodeRaw kvs with
    | (r, none) => .ok r
    | (_, some m) => .error m
  | _ => .error "json: cannot unmarshal non-object into IPFSFile"

/-! ### IPNSUpdate (`queue/types.go` lines 131–141) -/

/-- Message for the ipns update queue.  Its `CID` field carries the wire
tag `content_hash`, and it has an extra `IPNSHash` field; `LifeTime` and
`TTL` are strings. -/
structure IPNSUpdate where
  CID : String
  IPNSHash : String
  LifeTime : String
  TTL : String
  Key : String
  Resolve : Bool
  UserName : String
  NetworkName : String
  CreditCost : ℚ

/-- Zero value of `IPNSUpdate`. -/
def IPNSUpdate.zero : IPNSUpdate := ⟨"", "", "", "", "", false, "", "", 0⟩

/-- JSON encoding of `IPNSUpdate`, tags in declaration order. -/
def IPNSUpdate.encode (u : IPNSUpdate) : Json :=
  .obj [("content_hash", .str u.CID), ("ipns_hash", .str u.IPNSHash),
        ("life_time", .str u.LifeTime), ("ttl", .str u.TTL),
        ("key", .str u.Key), ("resolve", .bool u.Resolve),
        ("user_name", .str u.UserName), ("network_name", .str u.NetworkName),
        ("credit_cost", .num u.CreditCost)]

/-- Store one incoming key into an `IPNSUpdate`. -/
def IPNSUpdate.setField (r : IPNSUpdate) (k : String) (v : Json) :
    IPNSUpdate × Option String :=
  if k = "content_hash" then
    setVia Json.getStr (fun r s => {r with CID := s}) k r v
  else if k = "ipns_hash" then
    setVia Json.getStr (fun r s => {r with IPNSHash := s}) k r v
  else if k = "life_time" then
    setVia Json.getStr (fun r s => {r with LifeTime := s}) k r v
  else if k = "ttl" then
    setVia Json.getStr (fun r s => {r with TTL := s}) k r v
  else if k = "key" then
    setVia Json.getStr (fun r s => {r with Key := s}) k r v
  else if k = "resolve" then
    setVia Json.getBool (fun r b => {r with Resolve := b}) k r v
  else if k = "user_name" then
    setVia Json.getStr (fun r s => {r with UserName := s}) k r v
  else if k = "network_name" then
    setVia Json.getStr (fun r s => {r with NetworkName := s}) k r v
  else if k = "credit_cost" then
    setVia Json.getNum (fun r q => {r with CreditCost := q}) k r v
  else (r, none)

/-- Key-walking decode of an `IPNSUpdate`. -/
def IPNSUpdate.decodeRaw (kvs : List (String × Json)) :
    IPNSUpdate × Option String :=
  decodeFields IPNSUpdate.setField IPNSUpdate.zero none kvs

/-- Decode of an `IPNSUpdate` from a JSON document. -/
def IPNSUpdate.decode (j : Json) : Except String IPNSUpdate :=
  match j with
  | .null => .ok IPNSUpdate.zero
  | .obj kvs =>
    match IPNSUpdate.decodeRaw kvs with
    | (r, none) => .ok r
    | (_, some m) => .error m
  | _ => .error "json: cannot unmarshal non-object into IPNSUpdate"

/-! ### EmailSend (`queue/types.go` lines 144–150) -/

/-- Helper struct used to contain formatted content to send as an email.
`Emails` carries `omitempty`. -/
structure EmailSend where
  Subject : String
  Content : String
  ContentType : String
  UserNames : List String
  Emails : List String

/-- Zero value of `EmailSend`. -/
def EmailSend.zero : EmailSend := ⟨"", "", "", [], []⟩

/-- JSON encoding of `EmailSend`, tags in declaration order; the
`omitempty` `emails` key is dropped when the list is empty. -/
def EmailSend.encode (e : EmailSend) : Json :=
  .obj ([("subject", .str e.Subject), ("content", .str e.Content),
         ("content_type", .str e.ContentType),
         ("user_names", .arr (e.UserNames.map .str))]
    ++ (if e.Emails = [] then [] else [("emails", .arr (e.Emails.map .str))]))

/-- Store one incoming key into an `EmailSend`. -/
def EmailSend.setField (r : EmailSend) (k : String) (v : Json) :
    EmailSend × Option String :=
  if k = "subject" then
    setVia Json.getStr (fun r s => {r with Subject := s}) k r v
  else if k = "content" then
    setVia Json.getStr (fun r s => {r with Content := s}) k r v
  else if k = "content_type" then
    setVia Json.getStr (fun r s => {r with ContentType := s}) k r v
  else if k = "user_names" then
    setVia Json.getStrList (fun r l => {r with UserNames := l}) k r v
  else if k = "emails" then
    setVia Json.getStrList (fun r l => {r with Emails := l}) k r v
  else (r, none)

/-- Key-walking decode of an `EmailSend`. -/
def EmailSend.decodeRaw (kvs : List (String × Json)) :
    EmailSend × Option String :=
  decodeFields EmailSend.setField EmailSend.zero none kvs

/-- Decode of an `EmailSend` from a JSON document. -/
def EmailSend.decode (j : Json) : Except String EmailSend :=
  match j with
  | .null => .ok EmailSend.zero
  | .obj kvs =>
    match EmailSend.decodeRaw kvs with
    | (r, none) => .ok r
    | (_, some m) => .error m
  | _ => .error "json: cannot unmarshal non-object into EmailSend"

/-! ### IPNSEntry (`queue/types.go` lines 153–162) -/

/-- Holds information needed to process IPNS entry creation requests.
`LifeTime` and `TTL` are Go `time.Duration` values, i.e. `int64` counts of
nanoseconds, which `encoding/json` serializes as JSON numbers. -/
structure IPNSEntry where
  CID : String
  LifeTime : ℤ
  TTL : ℤ
  Resolve : Bool
  Key : String
  UserName : String
  NetworkName : String
  CreditCost : ℚ

/-- Zero value of `IPNSEntry`. -/
def IPNSEntry.zero : IPNSEntry := ⟨"", 0, 0, false, "", "", "", 0⟩

/-- JSON encoding of `IPNSEntry`, tags in declaration order. -/
def IPNSEntry.encode (e : IPNSEntry) : Json :=
  .obj [("cid", .str e.CID), ("life_time", .int e.LifeTime),
        ("ttl", .int e.TTL), ("resolve", .bool e.Resolve),
        ("key", .str e.Key), ("user_name", .str e.UserName),
        ("network_name", .str e.NetworkName),
        ("credit_cost", .num e.CreditCost)]

/-- Store one incoming key into an `IPNSEntry`. -/
def IPNSEntry.setField (r : IPNSEntry) (k : String) (v : Json) :
    IPNSEntry × Option String :=
  if k = "cid" then setVia Json.getStr (fun r s => {r with CID := s}) k r v
  else if k = "life_time" then
    setVia Json.getInt (fun r n => {r with LifeTime := n}) k r v
  else if k = "ttl" then
    setVia Json.getInt (fun r n => {r with TTL := n}) k r v
  else if k = "resolve" then
    setVia Json.getBool (fun r b => {r with Resolve := b}) k r v
  else if k = "key" then
    setVia Json.getStr (fun r s => {r with Key := s}) k r v
  else if k = "user_name" then
    setVia Json.getStr (fun r s => {r with UserName := s}) k r v
  else if k = "network_name" then
    setVia Json.getStr (fun r s => {r with NetworkName := s}) k r v
  else if k = "credit_cost" then
    setVia Json.getNum (fun r q => {r with CreditCost := q}) k r v
  else (r, none)

/-- Key-walking decode of an `IPNSEntry`. -/
def IPNSEntry.decodeRaw (kvs : List (String × Json)) :
    IPNSEntry × Option String :=
  decodeFields IPNSEntry.setField IPNSEntry.zero none kvs

/-- Decode of an `IPNSEntry` from a JSON document. -/
def IPNSEntry.decode (j : Json) : Except String IPNSEntry :=
  match j with
  | .null => .ok IPNSEntry.zero
  | .obj kvs =>
    match IPNSEntry.decodeRaw kvs with
    | (r, none) => .ok r
    | (_, some m) => .error m
  | _ => .error "json: cannot unmarshal non-object into IPNSEntry"

/-! ### MongoUpdate (`queue/types.go` lines 185–189) -/

/-- Update used to trigger mongodb updates.  The Go `map[string]string` is
modelled as an association list in iteration order. -/
structure MongoUpdate where
  DatabaseName : String
  CollectionName : String
  Fields : List (String × String)

/-- Zero value of `MongoUpdate`. -/
def MongoUpdate.zero : MongoUpdate := ⟨"", "", []⟩

/-- JSON encoding of `MongoUpdate`, tags in declaration order. -/
def MongoUpdate.encode (m : MongoUpdate) : Json :=
  .obj [("database_name", .str m.DatabaseName),
        ("collection_name", .str m.CollectionName),
        ("fields", .obj (m.Fields.map fun kv => (kv.1, .str kv.2)))]

/-- Store one incoming key into a `MongoUpdate`. -/
def MongoUpdate.setField (r : MongoUpdate) (k : String) (v : Json) :
    MongoUpdate × Option String :=
  if k = "database_name" then
    setVia Json.getStr (fun r s => {r with DatabaseName := s}) k r v
  else if k = "collection_name" then
    setVia Json.getStr (fun r s => {r with CollectionName := s}) k r v
  else if k = "fields" then
    setVia Json.getStrMap (fun r l => {r with Fields := l}) k r v
  else (r, none)

/-- Key-walking decode of a `MongoUpdate`. -/
def MongoUpdate.decodeRaw (kvs : List (String × Json)) :
    MongoUpdate × Option String :=
  decodeFields MongoUpdate.setField MongoUpdate.zero none kvs

/-- Decode of a `MongoUpdate` from a JSON document. -/
def MongoUpdate.decode (j : Json) : Except String MongoUpdate :=
  match j with
  | .null => .ok MongoUpdate.zero
  | .obj kvs =>
    match MongoUpdate.decodeRaw kvs with
    | (r, none) => .ok r
    | (_, some m) => .error m
  | _ => .error "json: cannot unmarshal non-object into MongoUpdate"

/-! ### RecordCreation (`queue/types.go` lines 200–206) -/

/-- Message used when creating a record.  The Go
`map[string]interface` metadata holds decoded generic JSON values, so it
is modelled as an association list from strings to `Json`. -/
structure RecordCreation where
  ZoneName : String
  RecordName : String
  RecordKeyName : String
  MetaData : List (String × Json)
  UserName : String

/-- Zero value of `RecordCreation`. -/
def RecordCreation.zero : RecordCreation := ⟨"", "", "", [], ""⟩

/-- JSON encoding of `RecordCreation`, tags in declaration order. -/
def RecordCreation.encode (rc : RecordCreation) : Json :=
  .obj [("zone_name", .str rc.ZoneName), ("record_name", .str rc.RecordName),
        ("record_key_name", .str rc.RecordKeyName),
        ("meta_data", .obj rc.MetaData), ("user_name", .str rc.UserName)]

/-- Store one incoming key into a `RecordCreation`. -/
def RecordCreation.setField (r : RecordCreation) (k : String) (v : Json) :
    RecordCreation × Option String :=
  if k = "zone_name" then
    setVia Json.getStr (fun r s => {r with ZoneName := s}) k r v
  else if k = "record_name" then
    setVia Json.getStr (fun r s => {r with RecordName := s}) k r v
  else if k = "record_key_name" then
    setVia Json.getStr (fun r s => {r with RecordKeyName := s}) k r v
  else if k = "meta_data" then
    setVia Json.getObj (fun r l => {r with MetaData := l}) k r v
  else if k = "user_name" then
    setVia Json.getStr (fun r s => {r with UserName := s}) k r v
  else (r, none)

/-- Key-walking decode of a `RecordCreation`. -/
def RecordCreation.decodeRaw (kvs : List (String × Json)) :
    RecordCreation × Option String :=
  decodeFields RecordCreation.setField RecordCreation.zero none kvs

/-- Decode of a `RecordCreation` from a JSON document. -/
def RecordCreation.decode (j : Json) : Except String RecordCreation :=
  match j with
  | .null => .ok RecordCreation.zero
  | .obj kvs =>
    match RecordCreation.decodeRaw kvs with
    | (r, none) => .ok r
    | (_, some m) => .error m
  | _ => .error "json: cannot unmarshal non-object into RecordCreation"

/-! ### Well-formed payloads

Go's decoder accepts an integer field only within the `int64` range and a
`float64` field only within the `float64` magnitude range, and it matches
keys case-insensitively when no exact tag matches.  The predicates below
describe well-formed payload bindings: the key is one of the schema's
exact wire tags and the value has the tag's type and is within the range
Go accepts, so every payload made of such bindings is decoded by
`encoding/json` without error and with the same field assignments as the
exact-match embedding. -/

/-- Smallest Go `int64` value. -/
def int64Min : ℤ := -(2 ^ 63)

/-- Largest Go `int64` value. -/
def int64Max : ℤ := 2 ^ 63 - 1

/-- Largest finite Go `float64` magnitude. -/
def maxFloat64 : ℚ := (2 ^ 53 - 1) * 2 ^ 971

/-- A well-formed binding of an ipfs-pin payload other than `cid`: one of
the remaining four wire tags of `IPFSPin`, carrying a value of that tag's
type within the range Go's decoder accepts. -/
def pinFieldNoCid (kv : String × Json) : Prop :=
  (kv.fst = "network_name" ∧ ∃ s, kv.snd = Json.str s)
  ∨ (kv.fst = "user_name" ∧ ∃ s, kv.snd = Json.str s)
  ∨ (kv.fst = "hold_time_in_months" ∧
      ∃ n : ℤ, int64Min ≤ n ∧ n ≤ int64Max ∧ kv.snd = Json.int n)
  ∨ (kv.fst = "credit_cost" ∧ ∃ q : ℚ, |q| ≤ maxFloat64 ∧ kv.snd = Json.num q)

/-- A well-formed binding of an email-send payload other than `emails`:
one of the remaining four wire tags of `EmailSend`, carrying a value of
that tag's type. -/
def emailFieldNoEmails (kv : String × Json) : Prop :=
  (kv.fst = "subject" ∧ ∃ s, kv.snd = Json.str s)
  ∨ (kv.fst = "content" ∧ ∃ s, kv.snd = Json.str s)
  ∨ (kv.fst = "content_type" ∧ ∃ s, kv.snd = Json.str s)
  ∨ (kv.fst = "user_names" ∧ ∃ l : List String, kv.snd = .arr (l.map Json.str))

theorem Json.getInt_int (n : ℤ) : Json.getInt (Json.int n) = some n := by
  simp [Json.int, Json.getInt]

theorem decode_encode_IPFSPin (p : IPFSPin) :
    IPFSPin.decode (IPFSPin.encode p) = .ok p := by
  simp [IPFSPin.encode, IPFSPin.decode, IPFSPin.decodeRaw, decodeFields,
        IPFSPin.setField, setVia, Json.getStr, Json.getInt, Json.getNum,
        Json.int, IPFSPin.zero]

/-- Claim C2: every queue name constant in the catalogue is a non-empty
string containing no whitespace, no two queue name constants are equal,
and the thirteen values are exactly the wire strings listed in the spec's
external-interfaces section. -/
theorem claim2_queue_name_catalogue :
    (queueNames.all fun q => !q.data.isEmpty && q.data.all (fun c => !c.isWhitespace)) = true
      ∧ queueNames.Nodup
      ∧ queueNames =
        ["dfa-queue", "ipfs-pin-queue", "ipfs-file-queue",
         "ipfs-cluster-add-queue", "email-send-queue", "ipns-entry-queue",
         "ipfs-key-creation-queue", "payment-creation-queue",
         "payment-confirmation-queue", "dash-payment-confirmation-queue",
         "mongo-update-queue", "zone-creation-queue", "record-creation-queue"] := by
  refine ⟨by decide, by decide, by decide⟩

theorem Json.getStrList_map (xs : List String) :
    Json.getStrList (.arr (xs.map .str)) = some xs := by
  simp only [Json.getStrList]
  induction xs with
  | nil => rfl
  | cons x rest ih => simp_all [Json.getStrs, Json.getStr]

theorem Json.getStrMap_map (kvs : List (String × String)) :
    Json.getStrMap (.obj (kvs.map fun kv => (kv.1, .str kv.2))) = some kvs := by
  simp only [Json.getStrMap]
  induction kvs with
  | nil => rfl
  | cons kv rest ih => simp_all [Json.getStrPairs, Json.getStr]

theorem decode_encode_IPFSClusterPin (p : IPFSClusterPin) :
    IPFSClusterPin.decode (IPFSClusterPin.encode p) = .ok p := by
  simp [IPFSClusterPin.encode, IPFSClusterPin.decode, IPFSClusterPin.decodeRaw,
        decodeFields, IPFSClusterPin.setField, setVia, Json.getStr, Json.getInt,
        Json.getNum, Json.int, IPFSClusterPin.zero]

theorem decode_encode_DatabaseFileAdd (p : DatabaseFileAdd) :
    DatabaseFileAdd.decode (DatabaseFileAdd.encode p) = .ok p := by
  simp [DatabaseFileAdd.encode, DatabaseFileAdd.decode, DatabaseFileAdd.decodeRaw,
        decodeFields, DatabaseFileAdd.setField, setVia, Json.getStr, Json.getInt,
        Json.getNum, Json.int, DatabaseFileAdd.zero]

theorem decode_encode_IPFSKeyCreation (p : IPFSKeyCreation) :
    IPFSKeyCreation.decode (IPFSKeyCreation.encode p) = .ok p := by
  simp [IPFSKeyCreation.encode, IPFSKeyCreation.decode, IPFSKeyCreation.decodeRaw,
        decodeFields, IPFSKeyCreation.setField, setVia, Json.getStr, Json.getInt,
        Json.getNum, Json.int, IPFSKeyCreation.zero]

theorem decode_encode_PaymentCreation (p : PaymentCreation) :
    PaymentCreation.decode (PaymentCreation.encode p) = .ok p := by
  simp [PaymentCreation.encode, PaymentCreation.decode, PaymentCreation.decodeRaw,
        decodeFields, PaymentCreation.setField, setVia, Json.getStr,
        PaymentCreation.zero]

theorem decode_encode_DashPaymenConfirmation (p : DashPaymenConfirmation) :
    DashPaymenConfirmation.decode (DashPaymenConfirmation.encode p) = .ok p := by
  simp [DashPaymenConfirmation.encode, DashPaymenConfirmation.decode,
        DashPaymenConfirmation.decodeRaw, decodeFields,
        DashPaymenConfirmation.setField, setVia, Json.getStr, Json.getInt,
        Json.int, DashPaymenConfirmation.zero]

theorem decode_encode_PaymentConfirmation (p : PaymentConfirmation) :
    PaymentConfirmation.decode (PaymentConfirmation.encode p) = .ok p := by
  simp [PaymentConfirmation.encode, PaymentConfirmation.decode,
        PaymentConfirmation.decodeRaw, decodeFields, PaymentConfirmation.setField,
        setVia, Json.getStr, Json.getInt, Json.int, PaymentConfirmation.zero]

theorem decode_encode_ZoneCreation (p : ZoneCreation) :
    ZoneCreation.decode (ZoneCreation.encode p) = .ok p := by
  simp [ZoneCreation.encode, ZoneCreation.decode, ZoneCreation.decodeRaw,
        decodeFields, ZoneCreation.setField, setVia, Json.getStr,
        ZoneCreation.zero]

theorem decode_encode_IPNSUpdate (u : IPNSUpdate) :
    IPNSUpdate.decode (IPNSUpdate.encode u) = .ok u := by
  simp [IPNSUpdate.encode, IPNSUpdate.decode, IPNSUpdate.decodeRaw,
        decodeFields, IPNSUpdate.setField, setVia, Json.getStr, Json.getBool,
        Json.getNum, IPNSUpdate.zero]

theorem decode_encode_IPNSEntry (e : IPNSEntry) :
    IPNSEntry.decode (IPNSEntry.encode e) = .ok e := by
  simp [IPNSEntry.encode, IPNSEntry.decode, IPNSEntry.decodeRaw,
        decodeFields, IPNSEntry.setField, setVia, Json.getStr, Json.getBool,
        Json.getNum, Json.getInt, Json.int, IPNSEntry.zero]

theorem decode_encode_EmailSend (e : EmailSend) :
    EmailSend.decode (EmailSend.encode e) = .ok e := by
  obtain ⟨s, c, ct, un, em⟩ := e
  by_cases h : em = [] <;>
    simp [EmailSend.encode, EmailSend.decode, EmailSend.decodeRaw,
          decodeFields, EmailSend.setField, setVia, Json.getStr,
          Json.getStrList_map, EmailSend.zero, h]

theorem decode_encode_IPFSFile (f : IPFSFile) :
    IPFSFile.decode (IPFSFile.encode f) = .ok f := by
  obtain ⟨mh, fn, fs, bn, ob, un, nn, ht, cc, en⟩ := f
  by_cases h1 : fn = "" <;> by_cases h2 : fs = 0 <;>
    simp [IPFSFile.encode, IPFSFile.decode, IPFSFile.decodeRaw, decodeFields,
          IPFSFile.setField, setVia, Json.getStr, Json.getInt, Json.getNum,
          Json.getBool, Json.int, IPFSFile.zero, h1, h2]

theorem decode_encode_MongoUpdate (m : MongoUpdate) :
    MongoUpdate.decode (MongoUpdate.encode m) = .ok m := by
  simp [MongoUpdate.encode, MongoUpdate.decode, MongoUpdate.decodeRaw,
        decodeFields, MongoUpdate.setField, setVia, Json.getStr,
        Json.getStrMap_map, MongoUpdate.zero]

theorem decode_encode_RecordCreation (rc : RecordCreation) :
    RecordCreation.decode (RecordCreation.encode rc) = .ok rc := by
  simp [RecordCreation.encode, RecordCreation.decode, RecordCreation.decodeRaw,
        decodeFields, RecordCreation.setField, setVia, Json.getStr,
        Json.getObj, RecordCreation.zero]

theorem setVia_fst_proj {α β γ : Type} (get : Json → Option β) (upd : α → β → α)
    (proj : α → γ) (hp : ∀ r b, proj (upd r b) = proj r)
    (m : String) (r : α) (v : Json) :
    proj ((setVia get upd m r v).fst) = proj r := by
  cases v <;> simp only [setVia] <;>
    first
      | rfl
      | (rcases get _ with _ | b <;> simp [hp])

theorem decodeFields_proj {α γ : Type}
    (set : α → String → Json → α × Option String) (proj : α → γ) (key : String)
    (hset : ∀ r k v, k ≠ key → proj ((set r k v).fst) = proj r)
    (kvs : List (String × Json)) (hk : ∀ kv ∈ kvs, kv.fst ≠ key) :
    ∀ r e, proj ((decodeFields set r e kvs).fst) = proj r := by
  induction kvs with
  | nil => intro r e; rfl
  | cons kv rest ih =>
    intro r e
    obtain ⟨k, v⟩ := kv
    simp only [decodeFields]
    rw [ih (fun kv hm => hk kv (List.mem_cons_of_mem _ hm))]
    exact hset r k v (hk (k, v) (List.mem_cons_self _ _))

theorem EmailSend.setField_preserves_emails (r : EmailSend) (k : String)
    (v : Json) (h : k ≠ "emails") :
    ((EmailSend.setField r k v).fst).Emails = r.Emails := by
  unfold EmailSend.setField
  split_ifs with h1 h2 h3 h4
  · exact setVia_fst_proj Json.getStr (fun r s => {r with Subject := s})
      EmailSend.Emails (fun r b => rfl) k r v
  · exact setVia_fst_proj Json.getStr (fun r s => {r with Content := s})
      EmailSend.Emails (fun r b => rfl) k r v
  · exact setVia_fst_proj Json.getStr (fun r s => {r with ContentType := s})
      EmailSend.Emails (fun r b => rfl) k r v
  · exact setVia_fst_proj Json.getStrList (fun r l => {r with UserNames := l})
      EmailSend.Emails (fun r b => rfl) k r v
  · rfl

theorem IPFSPin.setField_preserves_cid (r : IPFSPin) (k : String)
    (v : Json) (h : k ≠ "cid") :
    ((IPFSPin.setField r k v).fst).CID = r.CID := by
  unfold IPFSPin.setField
  split_ifs with h1 h2 h3 h4 h5
  · exact absurd h1 h
  · exact setVia_fst_proj Json.getStr (fun r s => {r with NetworkName := s})
      IPFSPin.CID (fun r b => rfl) k r v
  · exact setVia_fst_proj Json.getStr (fun r s => {r with UserName := s})
      IPFSPin.CID (fun r b => rfl) k r v
  · exact setVia_fst_proj Json.getInt (fun r n => {r with HoldTimeInMonths := n})
      IPFSPin.CID (fun r b => rfl) k r v
  · exact setVia_fst_proj Json.getNum (fun r q => {r with CreditCost := q})
      IPFSPin.CID (fun r b => rfl) k r v
  · rfl

theorem EmailSend.decodeRaw_emails_of_absent (kvs : List (String × Json))
    (hk : ∀ kv ∈ kvs, kv.fst ≠ "emails") :
    ((EmailSend.decodeRaw kvs).fst).Emails = [] :=
  decodeFields_proj EmailSend.setField EmailSend.Emails "emails"
    EmailSend.setField_preserves_emails kvs hk EmailSend.zero none

theorem IPFSPin.decodeRaw_cid_of_absent (kvs : List (String × Json))
    (hk : ∀ kv ∈ kvs, kv.fst ≠ "cid") :
    ((IPFSPin.decodeRaw kvs).fst).CID = "" :=
  decodeFields_proj IPFSPin.setField IPFSPin.CID "cid"
    IPFSPin.setField_preserves_cid kvs hk IPFSPin.zero none

theorem decodeFields_snd_none {α : Type}
    (set : α → String → Json → α × Option String)
    (kvs : List (String × Json))
    (hstep : ∀ r kv, kv ∈ kvs → (set r kv.fst kv.snd).snd = none) :
    ∀ r, (decodeFields set r none kvs).snd = none := by
  induction kvs with
  | nil => intro r; rfl
  | cons kv rest ih =>
    intro r
    obtain ⟨k, v⟩ := kv
    have h1 : (set r k v).snd = none := hstep r (k, v) (List.mem_cons_self _ _)
    simp only [decodeFields, h1, Option.none_orElse]
    exact ih (fun r kv hm => hstep r kv (List.mem_cons_of_mem _ hm)) _

theorem pinFieldNoCid_ne_cid (kv : String × Json) (h : pinFieldNoCid kv) :
    kv.fst ≠ "cid" := by
  rcases h with ⟨hk, _⟩ | ⟨hk, _⟩ | ⟨hk, _⟩ | ⟨hk, _⟩ <;> simp [hk]

theorem emailFieldNoEmails_ne_emails (kv : String × Json)
    (h : emailFieldNoEmails kv) : kv.fst ≠ "emails" := by
  rcases h with ⟨hk, _⟩ | ⟨hk, _⟩ | ⟨hk, _⟩ | ⟨hk, _⟩ <;> simp [hk]

theorem setField_wellformed_IPFSPin (r : IPFSPin) (kv : String × Json)
    (h : pinFieldNoCid kv) : (IPFSPin.setField r kv.fst kv.snd).snd = none := by
  rcases h with ⟨hk, s, hv⟩ | ⟨hk, s, hv⟩ | ⟨hk, n, hn1, hn2, hv⟩ | ⟨hk, q, hq, hv⟩ <;>
    rw [hk, hv] <;>
    simp [IPFSPin.setField, setVia, Json.getStr, Json.getInt, Json.getNum, Json.int]

theorem setField_wellformed_EmailSend (r : EmailSend) (kv : String × Json)
    (h : emailFieldNoEmails kv) : (EmailSend.setField r kv.fst kv.snd).snd = none := by
  rcases h with ⟨hk, s, hv⟩ | ⟨hk, s, hv⟩ | ⟨hk, s, hv⟩ | ⟨hk, l, hv⟩ <;>
    rw [hk, hv] <;>
    simp [EmailSend.setField, setVia, Json.getStr, Json.getStrList_map]

theorem IPFSFile.encode_lookup_holdtime (f : IPFSFile) :
    (IPFSFile.encode f).lookup "hold_time_in_months"
      = some (.str f.HoldTimeInMonths) := by
  obtain ⟨mh, fn, fs, bn, ob, un, nn, ht, cc, en⟩ := f
  by_cases h1 : fn = "" <;> by_cases h2 : fs = 0 <;>
    simp [IPFSFile.encode, Json.lookup, Json.find, h1, h2]

/-- Claim C1: for every message schema and every valid record, decoding the
encoding of the record yields the record back (round-trip law), quantified
over all record types of the file, including `RecordCreation` with its
string-to-arbitrary-JSON metadata; in particular the concrete
`DatabaseFileAdd` scenario of the spec round-trips exactly. -/
theorem claim1_roundtrip_all_records :
    (∀ p : IPFSKeyCreation, IPFSKeyCreation.decode (IPFSKeyCreation.encode p) = .ok p)
  ∧ (∀ p : IPFSPin, IPFSPin.decode (IPFSPin.encode p) = .ok p)
  ∧ (∀ f : IPFSFile, IPFSFile.decode (IPFSFile.encode f) = .ok f)
  ∧ (∀ p : IPFSClusterPin, IPFSClusterPin.decode (IPFSClusterPin.encode p) = .ok p)
  ∧ (∀ d : DatabaseFileAdd, DatabaseFileAdd.decode (DatabaseFileAdd.encode d) = .ok d)
  ∧ (∀ u : IPNSUpdate, IPNSUpdate.decode (IPNSUpdate.encode u) = .ok u)
  ∧ (∀ e : EmailSend, EmailSend.decode (EmailSend.encode e) = .ok e)
  ∧ (∀ e : IPNSEntry, IPNSEntry.decode (IPNSEntry.encode e) = .ok e)
  ∧ (∀ p : PaymentCreation, PaymentCreation.decode (PaymentCreation.encode p) = .ok p)
  ∧ (∀ d : DashPaymenConfirmation,
      DashPaymenConfirmation.decode (DashPaymenConfirmation.encode d) = .ok d)
  ∧ (∀ p : PaymentConfirmation,
      PaymentConfirmation.decode (PaymentConfirmation.encode p) = .ok p)
  ∧ (∀ m : MongoUpdate, MongoUpdate.decode (MongoUpdate.encode m) = .ok m)
  ∧ (∀ z : ZoneCreation, ZoneCreation.decode (ZoneCreation.encode z) = .ok z)
  ∧ (∀ rc : RecordCreation, RecordCreation.decode (RecordCreation.encode rc) = .ok rc)
  ∧ DatabaseFileAdd.decode
      (DatabaseFileAdd.encode ⟨"Qm123", 6, "alice", "public", 3/2⟩)
      = .ok ⟨"Qm123", 6, "alice", "public", 3/2⟩ :=
  ⟨decode_encode_IPFSKeyCreation, decode_encode_IPFSPin, decode_encode_IPFSFile,
   decode_encode_IPFSClusterPin, decode_encode_DatabaseFileAdd,
   decode_encode_IPNSUpdate, decode_encode_EmailSend, decode_encode_IPNSEntry,
   decode_encode_PaymentCreation, decode_encode_DashPaymenConfirmation,
   decode_encode_PaymentConfirmation, decode_encode_MongoUpdate,
   decode_encode_ZoneCreation, decode_encode_RecordCreation,
   decode_encode_DatabaseFileAdd _⟩

/-- Claim C3: `IPFSFile.HoldTimeInMonths` is carried as a string through
encode and decode — the encoded document maps `hold_time_in_months` to a
JSON string, never a number, and round-trips unchanged (`"6"` stays the
string `"6"`); the same-named wire key is a JSON number for
`DatabaseFileAdd`, `IPFSPin` and `IPFSClusterPin`. -/
theorem claim3_ipfsfile_holdtime_is_string :
    (∀ f : IPFSFile, (IPFSFile.encode f).lookup "hold_time_in_months"
        = some (.str f.HoldTimeInMonths))
  ∧ (∀ f : IPFSFile, IPFSFile.decode (IPFSFile.encode f) = .ok f)
  ∧ IPFSFile.decode (IPFSFile.encode ⟨"", "", 0, "", "", "", "", "6", 0, false⟩)
      = .ok ⟨"", "", 0, "", "", "", "", "6", 0, false⟩
  ∧ (∀ d : DatabaseFileAdd, (DatabaseFileAdd.encode d).lookup "hold_time_in_months"
        = some (.int d.HoldTimeInMonths))
  ∧ (∀ p : IPFSPin, (IPFSPin.encode p).lookup "hold_time_in_months"
        = some (.int p.HoldTimeInMonths))
  ∧ (∀ c : IPFSClusterPin, (IPFSClusterPin.encode c).lookup "hold_time_in_months"
        = some (.int c.HoldTimeInMonths)) :=
  ⟨IPFSFile.encode_lookup_holdtime, decode_encode_IPFSFile,
   decode_encode_IPFSFile _, fun _ => rfl, fun _ => rfl, fun _ => rfl⟩

/-- Claim C4: an `EmailSend` whose emails list is empty encodes to a
document with no `emails` key at all, and round-trips back to the empty
list; more generally every well-formed email-send payload from which the
`emails` key is absent decodes without error to a record whose emails
list is the zero value (the empty list), not a singleton empty string. -/
theorem claim4_emailsend_emails_omitted (e : EmailSend) (h : e.Emails = []) :
    "emails" ∉ (EmailSend.encode e).keys
  ∧ EmailSend.decode (EmailSend.encode e) = .ok e
  ∧ ∀ kvs : List (String × Json), (∀ kv ∈ kvs, emailFieldNoEmails kv) →
      EmailSend.decode (.obj kvs) = .ok (EmailSend.decodeRaw kvs).fst
      ∧ ((EmailSend.decodeRaw kvs).fst).Emails = [] := by
  refine ⟨?_, decode_encode_EmailSend e, fun kvs hk => ?_⟩
  · simp [EmailSend.encode, Json.keys, h]
  · have hno : (EmailSend.decodeRaw kvs).snd = none :=
      decodeFields_snd_none EmailSend.setField kvs
        (fun r kv hm => setField_wellformed_EmailSend r kv (hk kv hm))
        EmailSend.zero
    refine ⟨?_, EmailSend.decodeRaw_emails_of_absent kvs
      (fun kv hm => emailFieldNoEmails_ne_emails kv (hk kv hm))⟩
    rcases hd : EmailSend.decodeRaw kvs with ⟨r, er⟩
    rw [hd] at hno
    simp only at hno
    subst hno
    simp [EmailSend.decode, hd]

/-- Witness for C4 at a concrete record and a concrete well-formed
emails-free payload. -/
theorem claim4_emailsend_emails_omitted_witness :
    "emails" ∉ (EmailSend.encode ⟨"s", "c", "t", ["alice"], []⟩).keys
  ∧ EmailSend.decode (EmailSend.encode ⟨"s", "c", "t", ["alice"], []⟩)
      = .ok ⟨"s", "c", "t", ["alice"], []⟩
  ∧ EmailSend.decode (.obj [("subject", .str "s")])
      = .ok (EmailSend.decodeRaw [("subject", .str "s")]).fst
  ∧ ((EmailSend.decodeRaw [("subject", .str "s")]).fst).Emails = [] := by
  obtain ⟨h1, h2, h3⟩ :=
    claim4_emailsend_emails_omitted ⟨"s", "c", "t", ["alice"], []⟩ rfl
  obtain ⟨h4, h5⟩ := h3 [("subject", .str "s")] (by
    intro kv hm
    rcases List.mem_cons.mp hm with rfl | hm
    · exact Or.inl ⟨rfl, "s", rfl⟩
    · simp at hm)
  exact ⟨h1, h2, h4, h5⟩

/-- Claim C5 counterexample: decoding a well-formed ipfs-pin payload with
no `cid` key does not fail — it succeeds and returns an `IPFSPin` whose
CID is the zero-valued empty string, contradicting the claimed
DecodeError. -/
theorem claim5_missing_cid_counterexample :
    IPFSPin.decode (.obj [("network_name", .str "public"),
      ("user_name", .str "alice"), ("hold_time_in_months", Json.int 6),
      ("credit_cost", .num (3/2))]) = .ok ⟨"", "public", "alice", 6, 3/2⟩ := by
  simp [IPFSPin.decode, IPFSPin.decodeRaw, decodeFields, IPFSPin.setField,
        setVia, Json.getStr, Json.getInt, Json.getNum, Json.int, IPFSPin.zero]

/-- Claim C5 as amended: decoding a well-formed ipfs-pin payload — keys
drawn from the schema's exact wire tags with values of the tag's type and
within the int64/float64 ranges Go accepts — from which the `cid` key is
missing succeeds, and yields a record whose CID is the zero-valued empty
string, not a DecodeError. -/
theorem claim5_missing_cid_amended (kvs : List (String × Json))
    (hk : ∀ kv ∈ kvs, pinFieldNoCid kv) :
    IPFSPin.decode (.obj kvs) = .ok (IPFSPin.decodeRaw kvs).fst
  ∧ ((IPFSPin.decodeRaw kvs).fst).CID = "" := by
  have hno : (IPFSPin.decodeRaw kvs).snd = none :=
    decodeFields_snd_none IPFSPin.setField kvs
      (fun r kv hm => setField_wellformed_IPFSPin r kv (hk kv hm)) IPFSPin.zero
  refine ⟨?_, IPFSPin.decodeRaw_cid_of_absent kvs
    (fun kv hm => pinFieldNoCid_ne_cid kv (hk kv hm))⟩
  rcases hd : IPFSPin.decodeRaw kvs with ⟨r, e⟩
  rw [hd] at hno
  simp only at hno
  subst hno
  simp [IPFSPin.decode, hd]

/-- Witness for the amended C5 at a concrete well-formed payload without
`cid`. -/
theorem claim5_missing_cid_amended_witness :
    IPFSPin.decode (.obj [("network_name", .str "public"),
        ("hold_time_in_months", Json.int 6)])
      = .ok (IPFSPin.decodeRaw [("network_name", .str "public"),
        ("hold_time_in_months", Json.int 6)]).fst
  ∧ ((IPFSPin.decodeRaw [("network_name", .str "public"),
        ("hold_time_in_months", Json.int 6)]).fst).CID = "" :=
  claim5_missing_cid_amended
    [("network_name", .str "public"), ("hold_time_in_months", Json.int 6)]
    (by
      intro kv hm
      rcases List.mem_cons.mp hm with rfl | hm
      · exact Or.inl ⟨rfl, "public", rfl⟩
      · rcases List.mem_cons.mp hm with rfl | hm
        · exact Or.inr (Or.inr (Or.inl ⟨rfl, 6,
            by norm_num [int64Min], by norm_num [int64Max], rfl⟩))
        · simp at hm)

/-- Claim C6 counterexample: the two ipns-entry variants do not differ only
in the typing of their time fields — their encoded key sets differ:
`IPNSEntry` writes a `cid` key, `IPNSUpdate` writes no `cid` key but does
write `content_hash` and an extra `ipns_hash`. -/
theorem claim6_ipns_variants_counterexample :
    (IPNSEntry.encode IPNSEntry.zero).keys ≠ (IPNSUpdate.encode IPNSUpdate.zero).keys
  ∧ (IPNSEntry.encode IPNSEntry.zero).lookup "cid" = some (.str "")
  ∧ (IPNSUpdate.encode IPNSUpdate.zero).lookup "cid" = none
  ∧ "ipns_hash" ∈ (IPNSUpdate.encode IPNSUpdate.zero).keys :=
  ⟨by decide, rfl, rfl, by decide⟩

/-- Claim C6 as amended: the ipns-entry queue has two record variants whose
`life_time` and `ttl` fields are duration-typed (JSON numbers) in
`IPNSEntry` and string-typed in `IPNSUpdate`, and both carry resolve, key,
userName, networkName and creditCost under the same wire keys; however
`IPNSUpdate` additionally carries `ipns_hash` and serializes its CID under
`content_hash` rather than `cid`. -/
theorem claim6_ipns_variants_amended :
    (∀ e : IPNSEntry, (IPNSEntry.encode e).keys
        = ["cid", "life_time", "ttl", "resolve", "key", "user_name",
           "network_name", "credit_cost"])
  ∧ (∀ u : IPNSUpdate, (IPNSUpdate.encode u).keys
        = ["content_hash", "ipns_hash", "life_time", "ttl", "key", "resolve",
           "user_name", "network_name", "credit_cost"])
  ∧ (∀ e : IPNSEntry, (IPNSEntry.encode e).lookup "life_time" = some (.int e.LifeTime)
        ∧ (IPNSEntry.encode e).lookup "ttl" = some (.int e.TTL))
  ∧ (∀ u : IPNSUpdate, (IPNSUpdate.encode u).lookup "life_time" = some (.str u.LifeTime)
        ∧ (IPNSUpdate.encode u).lookup "ttl" = some (.str u.TTL)) :=
  ⟨fun _ => rfl, fun _ => rfl, fun _ => ⟨rfl, rfl⟩, fun _ => ⟨rfl, rfl⟩⟩

/-- Claim C7: `IPFSClusterPin` has the same shape as `IPFSPin` — records
with equal fields encode to identical documents, and each decodes from the
other's encoding with every field preserved. -/
theorem claim7_cluster_pin_same_shape (cid nn un : String) (ht : ℤ) (cc : ℚ) :
    IPFSPin.encode ⟨cid, nn, un, ht, cc⟩ = IPFSClusterPin.encode ⟨cid, nn, un, ht, cc⟩
  ∧ IPFSClusterPin.decode (IPFSPin.encode ⟨cid, nn, un, ht, cc⟩)
      = .ok ⟨cid, nn, un, ht, cc⟩
  ∧ IPFSPin.decode (IPFSClusterPin.encode ⟨cid, nn, un, ht, cc⟩)
      = .ok ⟨cid, nn, un, ht, cc⟩ :=
  ⟨rfl, decode_encode_IPFSClusterPin ⟨cid, nn, un, ht, cc⟩,
   decode_encode_IPFSPin ⟨cid, nn, un, ht, cc⟩⟩

/-- Claim C8: an `IPFSFile` whose `FileName` and `FileSize` hold their zero
values omits both keys from the encoded output, encodes identically to a
record where those fields were never set, and still round-trips to zero
values on decode. -/
theorem claim8_ipfsfile_omitempty (f : IPFSFile)
    (h1 : f.FileName = "") (h2 : f.FileSize = 0) :
    "file_name" ∉ (IPFSFile.encode f).keys
  ∧ "file_size" ∉ (IPFSFile.encode f).keys
  ∧ IPFSFile.encode f = IPFSFile.encode {f with FileName := "", FileSize := 0}
  ∧ IPFSFile.decode (IPFSFile.encode f) = .ok f := by
  obtain ⟨mh, fn, fs, bn, ob, un, nn, ht, cc, en⟩ := f
  dsimp only at h1 h2
  subst h1
  subst h2
  refine ⟨?_, ?_, rfl, decode_encode_IPFSFile _⟩
  · simp [IPFSFile.encode, Json.keys]
  · simp [IPFSFile.encode, Json.keys]

/-- Witness for C8 at a concrete record with zero-valued optional fields. -/
theorem claim8_ipfsfile_omitempty_witness :
    "file_name" ∉ (IPFSFile.encode
      ⟨"10.0.0.1", "", 0, "bkt", "obj", "alice", "public", "6", 3/2, true⟩).keys
  ∧ "file_size" ∉ (IPFSFile.encode
      ⟨"10.0.0.1", "", 0, "bkt", "obj", "alice", "public", "6", 3/2, true⟩).keys
  ∧ IPFSFile.encode ⟨"10.0.0.1", "", 0, "bkt", "obj", "alice", "public", "6", 3/2, true⟩
      = IPFSFile.encode {(⟨"10.0.0.1", "", 0, "bkt", "obj", "alice", "public", "6", 3/2, true⟩
          : IPFSFile) with FileName := "", FileSize := 0}
  ∧ IPFSFile.decode (IPFSFile.encode
      ⟨"10.0.0.1", "", 0, "bkt", "obj", "alice", "public", "6", 3/2, true⟩)
      = .ok ⟨"10.0.0.1", "", 0, "bkt", "obj", "alice", "public", "6", 3/2, true⟩ :=
  claim8_ipfsfile_omitempty
    ⟨"10.0.0.1", "", 0, "bkt", "obj", "alice", "public", "6", 3/2, true⟩ rfl rfl

/-- Claim C9: `IPNSUpdate` serializes its CID field under the wire key
`content_hash`, writes no `cid` key, and carries an extra `ipns_hash` key;
consequently a document encoded from an `IPNSEntry` leaves the CID field of
an `IPNSUpdate` decode at its zero value. -/
theorem claim9_ipnsupdate_wire_keys :
    (∀ u : IPNSUpdate, (IPNSUpdate.encode u).lookup "content_hash" = some (.str u.CID))
  ∧ (∀ u : IPNSUpdate, (IPNSUpdate.encode u).lookup "cid" = none)
  ∧ (∀ u : IPNSUpdate, "ipns_hash" ∈ (IPNSUpdate.encode u).keys)
  ∧ (∀ e : IPNSEntry,
      ((IPNSUpdate.decodeRaw (IPNSEntry.encode e).fields).fst).CID = "") := by
  refine ⟨fun u => rfl, fun u => rfl, fun u => ?_, fun e => ?_⟩
  · simp [IPNSUpdate.encode, Json.keys]
  · simp [IPNSEntry.encode, Json.fields, IPNSUpdate.decodeRaw, decodeFields,
          IPNSUpdate.setField, setVia, Json.getStr, Json.getBool, Json.getNum,
          Json.int, IPNSUpdate.zero]

/-- Claim C10: `PaymentConfirmation`'s wire keys are a strict subset of
`DashPaymenConfirmation`'s (`user_name`, `payment_number` versus those plus
`payment_forward_id`), so decoding an encoded `DashPaymenConfirmation` as a
`PaymentConfirmation` succeeds and preserves userName and paymentNumber. -/
theorem claim10_payment_confirmation_compatible (d : DashPaymenConfirmation) :
    (DashPaymenConfirmation.encode d).keys
        = ["user_name", "payment_forward_id", "payment_number"]
  ∧ (∀ p : PaymentConfirmation, (PaymentConfirmation.encode p).keys
        = ["user_name", "payment_number"])
  ∧ PaymentConfirmation.decode (DashPaymenConfirmation.encode d)
      = .ok ⟨d.UserName, d.PaymentNumber⟩ := by
  refine ⟨rfl, fun p => rfl, ?_⟩
  simp [DashPaymenConfirmation.encode, PaymentConfirmation.decode,
        PaymentConfirmation.decodeRaw, decodeFields, PaymentConfirmation.setField,
        setVia, Json.getStr, Json.getInt, Json.int, PaymentConfirmation.zero]
